import Mathlib

/-
Verification of the catalog template store (pkg/api/customization/catalog/store.go)
and the precanned-alert seeding package (controllers/user/alert) of the rancher
repository, as a shallow embedding in Lean 4.

External platform machinery (norman stores, k8s listers/clients, the catalog
utils and helm common packages, the alert manager/common packages) is not part
of the source slice; it is abstracted as explicit environments of oracle
functions, or, where a claim depends on a specific external definition, it is
modelled from the specification with a doc comment saying so.
-/

/-- Modelled from the spec: the catalog template-version object fetched through
the CatalogTemplateVersionLister. Its type (rancher/types) is not under src/;
only the version-constraint data relevant to ValidateRancherVersion is kept. -/
structure CatalogTemplateVersion where
  rancherMinVersion : String
  rancherMaxVersion : String
deriving Repr, DecidableEq

/-- Environment of the template store's compatibility check: the server-version
setting and the external functions it calls (catalog utils ReleaseServerVersion
and ValidateRancherVersion, helm common ParseExternalID, and the
CatalogTemplateVersionLister's Get), none of which are under src/. -/
structure TemplateVersionEnv where
  serverVersion : String
  releaseServerVersion : String → Bool
  parseExternalID : String → Except String (String × String)
  catalogTemplateVersionGet : String → String → Except String CatalogTemplateVersion
  validateRancherVersion : CatalogTemplateVersion → Except String Unit

/-- Embedding of templateStore.templateVersionForRancherVersion: reports whether
a template version works with the rancher server version, returning true on
every error path (fail-open) and false only when ValidateRancherVersion fails. -/
def templateVersionForRancherVersion (env : TemplateVersionEnv) (externalID : String) : Bool :=
  if !env.releaseServerVersion env.serverVersion then
    true
  else
    match env.parseExternalID externalID with
    | .error _ => true
    | .ok (templateVersionID, ns) =>
      match env.catalogTemplateVersionGet ns templateVersionID with
      | .error _ => true
      | .ok template =>
        match env.validateRancherVersion template with
        | .error _ => false
        | .ok _ => true

/-- One element of the resource's "versions" list, as the transformer reads it
out of the dynamic map: an optional int64 revision, the version string, and the
externalId string. -/
structure VersionData where
  revision : Option Int
  version : String
  externalId : String
deriving Repr, DecidableEq

/-- The catalog-template resource map as extractVersionLinks reads it: its "id",
its "versions" list when present as a list (the ok type assertion), and the
"versionLinks" field the transformer writes. -/
structure TemplateResource where
  id : String
  versions : Option (List VersionData)
  versionLinks : Option (List (String × String)) := none
deriving Repr, DecidableEq

/-- The slice of the APIContext the transformer uses: the URL builder's
ResourceLinkByID applied to the templateVersion schema, plus the environment of
the compatibility check. -/
structure APIContextModel where
  resourceLinkByID : String → String
  tvEnv : TemplateVersionEnv

/-- The revision string: strconv.FormatInt of the int64 revision when the type
assertion succeeds, empty otherwise. -/
def revisionString (v : VersionData) : String :=
  match v.revision with
  | some n => toString n
  | none => ""

/-- The version ID built by extractVersionLinks: "id-version", overridden by
"id-revision" when the revision string is nonempty. -/
def versionIDOf (res : TemplateResource) (v : VersionData) : String :=
  if revisionString v ≠ "" then res.id ++ "-" ++ revisionString v
  else res.id ++ "-" ++ v.version

/-- Go map assignment r[k] = val on the assoc-list model: replace the existing
entry for the key or append a new one. -/
def mapInsert (m : List (String × String)) (k val : String) : List (String × String) :=
  if m.any (fun p => p.1 == k) then
    m.map (fun p => if p.1 == k then (k, val) else p)
  else
    m ++ [(k, val)]

/-- One iteration of the loop of extractVersionLinks: when the compatibility
check passes for the version, map its version string to the resource link for
its version ID, otherwise leave the map unchanged. -/
def versionLinkStep (ctx : APIContextModel) (res : TemplateResource)
    (r : List (String × String)) (v : VersionData) : List (String × String) :=
  if templateVersionForRancherVersion ctx.tvEnv v.externalId then
    mapInsert r v.version (ctx.resourceLinkByID (versionIDOf res v))
  else r

/-- Embedding of templateStore.extractVersionLinks: for each version of the
resource, when the compatibility check passes, map the version string to the
resource link for its version ID. -/
def extractVersionLinks (ctx : APIContextModel) (res : TemplateResource) : List (String × String) :=
  match res.versions with
  | none => []
  | some vs => vs.foldl (versionLinkStep ctx res) []

/-- Embedding of the Transformer closure installed by GetTemplateStore: set the
versionLinks field of the data map to extractVersionLinks and return it with a
nil error. -/
def templateStoreTransformer (ctx : APIContextModel) (d : TemplateResource) :
    TemplateResource × Option String :=
  ({ d with versionLinks := some (extractVersionLinks ctx d) }, none)

/-- Timing fields shared by alert groups and rules (CommonGroupField /
CommonRuleField's TimingField). -/
structure TimingField where
  groupWaitSeconds : Int
  groupIntervalSeconds : Int
  repeatIntervalSeconds : Int
deriving Repr, DecidableEq

/-- Modelled from the spec: the comparison operators of the alert manager
package (not under src/) used by the static tables' metric rules. -/
inductive Comparison where
  | notEqual
  | greaterThan
  | greaterOrEqual
  | hasValue
deriving Repr, DecidableEq

/-- Modelled from the spec: the warning severity constant of the alert package
(defined outside src/), as in "node memory utilization >= 80% => warning". -/
def SeverityWarning : String := "warning"

/-- Modelled from the spec: the critical severity constant of the alert package
(defined outside src/). -/
def SeverityCritical : String := "critical"

/-- Modelled from the spec: common.GetGroupID of the alert common package (not
under src/), which computes the ID by which a rule references its group,
namespaced by the cluster or project name. -/
def GetGroupID (ns name : String) : String := ns ++ ":" ++ name

/-- Metric rule of an alert rule spec; the threshold is integral in every
static table entry, so it is carried as an Int. -/
structure MetricRule where
  description : String
  expression : String
  comparison : Comparison
  duration : String
  thresholdValue : Int := 0
deriving Repr, DecidableEq

/-- System-service rule of an alert rule spec. -/
structure SystemServiceRule where
  condition : String
deriving Repr, DecidableEq

/-- Event rule of an alert rule spec. -/
structure EventRule where
  eventType : String
  resourceKind : String
deriving Repr, DecidableEq

/-- AlertStatus of a group or rule. -/
structure AlertStatus where
  alertState : String
deriving Repr, DecidableEq

/-- ClusterGroupSpec: the cluster name plus the common group fields. -/
structure ClusterGroupSpec where
  clusterName : String := ""
  description : String
  displayName : String
  timing : TimingField
deriving Repr, DecidableEq

/-- ClusterAlertGroup with its object name. -/
structure ClusterAlertGroup where
  name : String
  spec : ClusterGroupSpec
  status : AlertStatus
deriving Repr, DecidableEq

/-- ClusterAlertRuleSpec: cluster/group references plus the common rule fields
and the optional rule payloads. -/
structure ClusterAlertRuleSpec where
  clusterName : String := ""
  groupName : String := ""
  severity : String
  displayName : String
  inherited : Option Bool := none
  timing : TimingField
  metricRule : Option MetricRule := none
  systemServiceRule : Option SystemServiceRule := none
  eventRule : Option EventRule := none
deriving Repr, DecidableEq

/-- ClusterAlertRule with its object name. -/
structure ClusterAlertRule where
  name : String
  spec : ClusterAlertRuleSpec
  status : AlertStatus
deriving Repr, DecidableEq

/-- One entry of the static table: a cluster alerting group and the rules for
that group. -/
structure entry where
  group : ClusterAlertGroup
  rules : List ClusterAlertRule
deriving Repr, DecidableEq

/-- Constant nodeAlertGroupName of the alert package. -/
def nodeAlertGroupName : String := "node-alert"

/-- Global inherited of the alert package (the pointee of the Inherited pointer
on the etcd-system-service rule). -/
def inherited : Bool := false

/-- The static table of cluster alerting groups and the rules for those groups
(the entries variable), parameterized by defaultTimingField, which the alert
package defines outside this source slice. -/
def entries (dtf : TimingField) : List entry :=
  [ { group :=
        { name := "etcd-alert"
          spec :=
            { description := "Alert for etcd leader existence, db size"
              displayName := "A set of alerts for etcd"
              timing := dtf }
          status := { alertState := "active" } }
      rules :=
        [ { name := "no-leader"
            spec :=
              { severity := SeverityCritical
                displayName := "Etcd member has no leader"
                timing := dtf
                metricRule := some
                  { description := "Etcd member has no leader"
                    expression := "etcd_server_has_leader"
                    comparison := Comparison.notEqual
                    duration := "3m"
                    thresholdValue := 1 } }
            status := { alertState := "active" } }
        , { name := "high-number-of-leader-changes"
            spec :=
              { severity := SeverityWarning
                displayName := "A high number of leader changes within the etcd cluster are happening"
                timing := dtf
                metricRule := some
                  { description := "Etcd instance has seen high number of leader changes within the last hour"
                    expression := "increase(etcd_server_leader_changes_seen_total[1h])"
                    comparison := Comparison.greaterThan
                    duration := "3m"
                    thresholdValue := 3 } }
            status := { alertState := "active" } }
        , { name := "db-over-size"
            spec :=
              { severity := SeverityWarning
                displayName := "Database usage close to the quota 500M"
                timing := dtf
                metricRule := some
                  { description := "Shows the etcd database size including free space waiting for defragmentation close to the quota"
                    expression := "sum(etcd_debugging_mvcc_db_total_size_in_bytes)"
                    comparison := Comparison.greaterThan
                    duration := "3m"
                    thresholdValue := 524288000 } }
            status := { alertState := "active" } }
        , { name := "etcd-system-service"
            spec :=
              { severity := SeverityCritical
                displayName := "Etcd is unavailable"
                inherited := some inherited
                timing :=
                  { groupWaitSeconds := 600
                    groupIntervalSeconds := 180
                    repeatIntervalSeconds := 3600 }
                systemServiceRule := some { condition := "etcd" } }
            status := { alertState := "active" } } ] }
  , { group :=
        { name := "kube-components-alert"
          spec :=
            { description := "Alert for kube components api server, scheduler, controller manager"
              displayName := "A set of alerts for kube components"
              timing := dtf }
          status := { alertState := "active" } }
      rules :=
        [ { name := "scheduler-system-service"
            spec :=
              { severity := SeverityCritical
                displayName := "Scheduler is unavailable"
                timing := dtf
                systemServiceRule := some { condition := "scheduler" } }
            status := { alertState := "active" } }
        , { name := "controllermanager-system-service"
            spec :=
              { severity := SeverityCritical
                displayName := "Controller Manager is unavailable"
                timing := dtf
                systemServiceRule := some { condition := "controller-manager" } }
            status := { alertState := "active" } } ] }
  , { group :=
        { name := "node-alert"
          spec :=
            { description := "Alert for Node Memory, CPU, Disk Usage"
              displayName := "A set of alerts for node"
              timing := dtf }
          status := { alertState := "active" } }
      rules :=
        [ { name := "node-disk-running-full"
            spec :=
              { severity := SeverityCritical
                displayName := "Node disk is running full within 24 hours"
                timing := dtf
                metricRule := some
                  { description := "Device on node is running full within the next 24 hours"
                    expression := "predict_linear(node_filesystem_free_bytes\x7bmountpoint!~\"^/etc/(?:resolv.conf|hosts|hostname)$\"\x7d[6h], 3600 * 24) < 0"
                    comparison := Comparison.hasValue
                    duration := "10m" } }
            status := { alertState := "active" } }
        , { name := "high-memmory"
            spec :=
              { severity := SeverityWarning
                displayName := "High node memory utilization"
                timing := dtf
                metricRule := some
                  { description := "Node memory utilization is over 80%"
                    expression := "(1 - sum(node_memory_MemAvailable_bytes) by (instance) / sum(node_memory_MemTotal_bytes) by (instance)) * 100"
                    comparison := Comparison.greaterOrEqual
                    duration := "3m"
                    thresholdValue := 80 } }
            status := { alertState := "active" } }
        , { name := "high-cpu-load"
            spec :=
              { severity := SeverityWarning
                displayName := "High cpu load"
                timing := dtf
                metricRule := some
                  { description := "The cpu load is higher than 100"
                    expression := "sum(node_load1) by (node)  / sum(machine_cpu_cores) by (node) * 100"
                    comparison := Comparison.greaterThan
                    duration := "3m"
                    thresholdValue := 100 } }
            status := { alertState := "active" } } ] }
  , { group :=
        { name := "event-alert"
          spec :=
            { description := "Alert for receiving resource event"
              displayName := "A set of alerts when event happened"
              timing := dtf }
          status := { alertState := "active" } }
      rules :=
        [ { name := "deployment-event-alert"
            spec :=
              { severity := SeverityWarning
                displayName := "Get warning deployment event"
                timing := dtf
                eventRule := some { eventType := "Warning", resourceKind := "Deployment" } }
            status := { alertState := "active" } } ] } ]

/-- Outcome of a lister Get, as the seeding code discriminates it via
apierrors.IsNotFound: the object, a not-found error, or any other error. -/
inductive GetResult (α : Type) where
  | found (a : α)
  | notFound
  | otherError (msg : String)
deriving Repr, DecidableEq

/-- Whether a Get outcome is the not-found error. -/
def GetResult.isNotFound : GetResult α → Bool
  | .notFound => true
  | _ => false

/-- Outcome of a Create call, as the seeding code discriminates it via
apierrors.IsAlreadyExists. -/
inductive CreateResult where
  | ok
  | alreadyExists
  | otherError (msg : String)
deriving Repr, DecidableEq

/-- The lister side of the cluster alert client (clusterAlertGroupLister and
clusterAlertRuleLister), keyed by cluster name and object name. -/
structure ClusterClient where
  groupGet : String → String → GetResult ClusterAlertGroup
  ruleGet : String → String → GetResult ClusterAlertRule

/-- A Create call issued against the cluster alert interfaces. -/
inductive CreateCall where
  | group (g : ClusterAlertGroup)
  | rule (r : ClusterAlertRule)
deriving Repr, DecidableEq

/-- The group as initClusterPreCanAlerts creates it: the table's group with
Spec.ClusterName set to the cluster. -/
def seededGroup (clusterName : String) (g : ClusterAlertGroup) : ClusterAlertGroup :=
  { g with spec := { g.spec with clusterName := clusterName } }

/-- The rule as initClusterPreCanAlerts creates it: the table's rule with
Spec.ClusterName set to the cluster and Spec.GroupName set to the group's ID. -/
def seededRule (clusterName groupName : String) (r : ClusterAlertRule) : ClusterAlertRule :=
  { r with spec := { r.spec with
      clusterName := clusterName
      groupName := GetGroupID clusterName groupName } }

/-- Sequencing of a loop body that appends a batch of emitted calls per
element, as the seeding for-loops do. -/
def listBind (l : List α) (f : α → List β) : List β :=
  l.foldr (fun a acc => f a ++ acc) []

/-- The Create calls the group half of the loop body issues: the group is
created when its lister Get reports not-found; any other Get error is only
logged, and a Create failure is only logged. -/
def groupCreates (client : ClusterClient) (clusterName : String)
    (g : ClusterAlertGroup) : List CreateCall :=
  match client.groupGet clusterName g.name with
  | .found _ => []
  | .otherError _ => []
  | .notFound => [CreateCall.group (seededGroup clusterName g)]

/-- The Create calls one rule iteration issues: the rule is created when its
lister Get reports not-found; any other Get error is only logged, and a Create
failure is only logged. -/
def ruleCreates (client : ClusterClient) (clusterName groupName : String)
    (r : ClusterAlertRule) : List CreateCall :=
  match client.ruleGet clusterName r.name with
  | .found _ => []
  | .otherError _ => []
  | .notFound => [CreateCall.rule (seededRule clusterName groupName r)]

/-- The Create calls one entry of the outer loop issues. -/
def entryCreates (client : ClusterClient) (clusterName : String) (e : entry) :
    List CreateCall :=
  groupCreates client clusterName e.group
    ++ listBind e.rules (ruleCreates client clusterName e.group.name)

/-- Embedding of initClusterPreCanAlerts, returning the list of Create calls it
issues over the static table. -/
def initClusterPreCanAlerts (dtf : TimingField) (client : ClusterClient)
    (clusterName : String) : List CreateCall :=
  listBind (entries dtf) (entryCreates client clusterName)

/-- Modelled from the spec: the reference reconciliation function, "for each
(group, rules) in table: if not exists(key) then create(key, value)", with the
cluster name and group ID filled into the created value, parameterized over
abstract existence predicates supplied by the hosting platform's client. -/
def referenceReconcile (dtf : TimingField) (existsGroup existsRule : String → Bool)
    (clusterName : String) : List CreateCall :=
  listBind (entries dtf)
    (fun e =>
      (if existsGroup e.group.name then []
       else [CreateCall.group (seededGroup clusterName e.group)])
      ++ listBind e.rules
          (fun r =>
            if existsRule r.name then []
            else [CreateCall.rule (seededRule clusterName e.group.name r)]))

/-- The project object as ProjectLifecycle reads it: its object name and its
metadata namespace. -/
structure ProjectObj where
  name : String
  nspace : String
deriving Repr, DecidableEq

/-- ProjectGroupSpec: the project reference plus the common group fields. -/
structure ProjectGroupSpec where
  projectName : String := ""
  description : String
  displayName : String
  timing : TimingField
deriving Repr, DecidableEq

/-- ProjectAlertGroup with its object name and namespace. -/
structure ProjectAlertGroup where
  name : String
  nspace : String
  spec : ProjectGroupSpec
  status : AlertStatus
deriving Repr, DecidableEq

/-- Workload rule of a project alert rule spec. -/
structure WorkloadRule where
  selector : List (String × String)
  availablePercentage : Int
deriving Repr, DecidableEq

/-- ProjectAlertRuleSpec: project/group references plus the common rule fields
and the optional rule payloads. -/
structure ProjectAlertRuleSpec where
  projectName : String := ""
  groupName : String := ""
  severity : String
  displayName : String
  timing : TimingField
  workloadRule : Option WorkloadRule := none
  metricRule : Option MetricRule := none
deriving Repr, DecidableEq

/-- ProjectAlertRule with its object name and namespace. -/
structure ProjectAlertRule where
  name : String
  nspace : String
  spec : ProjectAlertRuleSpec
  status : AlertStatus
deriving Repr, DecidableEq

/-- The Create side of the project alert client (projectAlertGroups and
projectAlertRules interfaces), as outcome oracles. -/
structure ProjectClient where
  groupCreate : ProjectAlertGroup → CreateResult
  ruleCreate : ProjectAlertRule → CreateResult

/-- The warning logged for a failed Create: emitted only when the error is not
already-exists. -/
def createWarnLog (res : CreateResult) (msg : String) : List String :=
  match res with
  | .otherError e => [msg ++ ": " ++ e]
  | _ => []

/-- The built-in project alert group seeded by ProjectLifecycle.Create. -/
def projectWorkloadGroup (dtf : TimingField) (obj : ProjectObj) : ProjectAlertGroup :=
  { name := "projectalert-workload-alert"
    nspace := obj.name
    spec :=
      { projectName := obj.nspace ++ ":" ++ obj.name
        displayName := "A set of alerts for workload, pod, container"
        description := "Alert for cpu, memory, disk, network"
        timing := dtf }
    status := { alertState := "active" } }

/-- The first built-in project alert rule seeded by ProjectLifecycle.Create. -/
def projectWorkloadRule1 (dtf : TimingField) (obj : ProjectObj) : ProjectAlertRule :=
  { name := "less-than-half-workload-available"
    nspace := obj.name
    spec :=
      { projectName := obj.nspace ++ ":" ++ obj.name
        groupName := GetGroupID obj.name "projectalert-workload-alert"
        severity := SeverityCritical
        displayName := "Less than half workload available"
        timing := dtf
        workloadRule := some
          { selector := [("app", "workload")]
            availablePercentage := 50 } }
    status := { alertState := "active" } }

/-- The second built-in project alert rule seeded by ProjectLifecycle.Create. -/
def projectWorkloadRule2 (dtf : TimingField) (obj : ProjectObj) : ProjectAlertRule :=
  { name := "memory-close-to-resource-limited"
    nspace := obj.name
    spec :=
      { projectName := obj.nspace ++ ":" ++ obj.name
        groupName := GetGroupID obj.name "projectalert-workload-alert"
        severity := SeverityWarning
        displayName := "Memory usage close to the quota"
        timing := dtf
        metricRule := some
          { description := "Container using memory close to the quota"
            expression := "sum(container_memory_working_set_bytes) by (pod_name, container_name) / sum(label_join(label_join(kube_pod_container_resource_limits_memory_bytes,\"pod_name\", \"\", \"pod\"),\"container_name\", \"\", \"container\")) by (pod_name, container_name)"
            comparison := Comparison.greaterThan
            duration := "3m"
            thresholdValue := 1 } }
    status := { alertState := "active" } }

/-- Embedding of ProjectLifecycle.Create: unconditionally create the built-in
group and the two built-in rules, logging (never propagating) any non
already-exists Create failure, and return the input object with a nil error.
The result carries the returned pair, the issued creates, and the warn logs. -/
def projectLifecycleCreate (dtf : TimingField) (client : ProjectClient) (obj : ProjectObj) :
    (ProjectObj × Option String) × (List ProjectAlertGroup × List ProjectAlertRule) × List String :=
  let group := projectWorkloadGroup dtf obj
  let logs1 := createWarnLog (client.groupCreate group)
    "Failed to create built-in rules for deployment"
  let rule1 := projectWorkloadRule1 dtf obj
  let logs2 := createWarnLog (client.ruleCreate rule1)
    ("Failed to create precan rules for " ++ rule1.name)
  let rule2 := projectWorkloadRule2 dtf obj
  let logs3 := createWarnLog (client.ruleCreate rule2)
    ("Failed to create precan rules for " ++ rule2.name)
  ((obj, none), ([group], [rule1, rule2]), logs1 ++ logs2 ++ logs3)

/-- Embedding of ProjectLifecycle.Updated: return the input object unchanged
with a nil error. -/
def projectLifecycleUpdated (obj : ProjectObj) : ProjectObj × Option String :=
  (obj, none)

/-- Embedding of ProjectLifecycle.Remove: return the input object unchanged
with a nil error. -/
def projectLifecycleRemove (obj : ProjectObj) : ProjectObj × Option String :=
  (obj, none)

/-- A core v1 Node as the windows syncer reads it: its name and labels. -/
structure Node where
  name : String
  labels : List (String × String)
deriving Repr, DecidableEq

/-- The windows node label selector (kubernetes.io/os=windows). -/
def windowNodeLabel : List (String × String) := [("kubernetes.io/os", "windows")]

/-- Whether a node matches the windows node label selector. -/
def matchesWindowNodeLabel (n : Node) : Bool :=
  windowNodeLabel.all (fun kv => n.labels.lookup kv.1 == some kv.2)

/-- Environment of the windows node syncer: the cluster name, the outcome of
listing all nodes (the external lister applies the label selector, modelled
here by filtering), the lister Get for the windows rule, and the Create
outcome oracle. -/
structure WindowsNodeSyncEnv where
  clusterName : String
  allNodes : Except String (List Node)
  ruleGet : GetResult ClusterAlertRule
  ruleCreate : ClusterAlertRule → CreateResult

/-- The windows-node-disk-running-full rule as initClusterWindowsAlert builds
it, in the node-alert group of the cluster. -/
def windowsRule (dtf : TimingField) (clusterName : String) : ClusterAlertRule :=
  { name := "windows-node-disk-running-full"
    spec :=
      { clusterName := clusterName
        groupName := GetGroupID clusterName nodeAlertGroupName
        severity := SeverityCritical
        displayName := "Windows node disk is running full within 24 hours"
        timing := dtf
        metricRule := some
          { description := "Device on node is running full within the next 24 hours"
            expression := "predict_linear(node_filesystem_free_bytes\x7bjob=~\"expose-node-metrics-windows\", device!~\"HarddiskVolume.+\"\x7d[6h], 3600 * 24) < 0"
            comparison := Comparison.hasValue
            duration := "10m" } }
    status := { alertState := "active" } }

/-- Embedding of windowsNodeSyner.initClusterWindowsAlert: propagate a non
not-found Get error; do nothing when the rule already exists; otherwise create
the windows rule, propagating a non already-exists Create failure. Returns the
error outcome and the issued Create calls. -/
def initClusterWindowsAlert (dtf : TimingField) (env : WindowsNodeSyncEnv) :
    Option String × List ClusterAlertRule :=
  match env.ruleGet with
  | .otherError e =>
    (some ("Failed to get alert rules windows-node-disk-running-full: " ++ e), [])
  | .found _ => (none, [])
  | .notFound =>
    let rule := windowsRule dtf env.clusterName
    match env.ruleCreate rule with
    | .otherError e =>
      (some ("Failed to create precan rules windows-node-disk-running-full: " ++ e), [rule])
    | _ => (none, [rule])

/-- Embedding of windowsNodeSyner.Sync: propagate a node-list error with a nil
object; when at least one windows node exists, run initClusterWindowsAlert and
return the input object with its error; otherwise return the input object with
a nil error and no creates. -/
def windowsNodeSynerSync (dtf : TimingField) (env : WindowsNodeSyncEnv) (obj : Node) :
    (Option Node × Option String) × List ClusterAlertRule :=
  match env.allNodes with
  | .error e => ((none, some ("failed to list nodes: " ++ e)), [])
  | .ok nodes =>
    let windowsNodes := nodes.filter matchesWindowNodeLabel
    if windowsNodes.length ≠ 0 then
      let r := initClusterWindowsAlert dtf env
      ((some obj, r.1), r.2)
    else
      ((some obj, none), [])

/-- A concrete timing field standing in for the externally defined
defaultTimingField in concrete evaluations. -/
def dtf0 : TimingField :=
  { groupWaitSeconds := 180, groupIntervalSeconds := 180, repeatIntervalSeconds := 3600 }

/-- A concrete cluster alert group used as a lister result in evaluations. -/
def dummyGroup : ClusterAlertGroup :=
  { name := "g"
    spec := { description := "d", displayName := "d", timing := dtf0 }
    status := { alertState := "active" } }

/-- A concrete cluster alert rule used as a lister result in evaluations. -/
def dummyRule : ClusterAlertRule :=
  { name := "r"
    spec := { severity := SeverityWarning, displayName := "d", timing := dtf0 }
    status := { alertState := "active" } }

/-- A concrete table entry used as a default in evaluations. -/
def dummyEntry : entry :=
  { group := dummyGroup, rules := [] }

/-- A cluster client whose listers report every object missing. -/
def clientAllNotFound : ClusterClient :=
  { groupGet := fun _ _ => .notFound, ruleGet := fun _ _ => .notFound }

/-- A cluster client whose listers find every object. -/
def clientAllFound : ClusterClient :=
  { groupGet := fun _ _ => .found dummyGroup, ruleGet := fun _ _ => .found dummyRule }

/-- A concrete template-version environment on a non-release (development)
server version. -/
def tvEnvDev : TemplateVersionEnv :=
  { serverVersion := "dev"
    releaseServerVersion := fun _ => false
    parseExternalID := fun _ => .error "bad external id"
    catalogTemplateVersionGet := fun _ _ => .error "not found"
    validateRancherVersion := fun _ => .ok () }

/-- A concrete API context over the development environment. -/
def ctx0 : APIContextModel :=
  { resourceLinkByID := fun s => "link/" ++ s, tvEnv := tvEnvDev }

/-- A concrete catalog-template resource with a single version. -/
def res0 : TemplateResource :=
  { id := "library-app"
    versions := some
      [ { revision := none
          version := "1.0.0"
          externalId := "catalog://?catalog=library&template=app&version=1.0.0" } ] }

/-- A concrete node carrying the windows label. -/
def winNode0 : Node :=
  { name := "n1", labels := [("kubernetes.io/os", "windows")] }

/-- A concrete windows-sync environment with one windows node and no existing
windows rule. -/
def winEnv0 : WindowsNodeSyncEnv :=
  { clusterName := "c1"
    allNodes := .ok [winNode0]
    ruleGet := .notFound
    ruleCreate := fun _ => .ok }

/-- A concrete windows-sync environment in which the windows rule already
exists. -/
def winEnvFound : WindowsNodeSyncEnv :=
  { clusterName := "c1"
    allNodes := .ok [winNode0]
    ruleGet := .found dummyRule
    ruleCreate := fun _ => .ok }

/-- Membership in the sequenced loop output decomposes to membership in one
element's batch. -/
theorem mem_listBind {l : List α} {f : α → List β} {x : β} :
    x ∈ listBind l f ↔ ∃ a ∈ l, x ∈ f a := by
  induction l with
  | nil => simp [listBind]
  | cons a l ih =>
    simp only [listBind, List.foldr_cons, List.mem_append] at *
    constructor
    · rintro (hx | hx)
      · exact ⟨a, List.mem_cons_self a l, hx⟩
      · obtain ⟨b, hb, hxb⟩ := ih.mp hx
        exact ⟨b, List.mem_cons_of_mem a hb, hxb⟩
    · rintro ⟨b, hb, hxb⟩
      rcases List.mem_cons.mp hb with rfl | hb
      · exact Or.inl hxb
      · exact Or.inr (ih.mpr ⟨b, hb, hxb⟩)

/-- A pair in the map after a Go-style assignment is the assigned pair or a
pair already present. -/
theorem mem_mapInsert {m : List (String × String)} {k val : String}
    {p : String × String} (hp : p ∈ mapInsert m k val) :
    p = (k, val) ∨ p ∈ m := by
  unfold mapInsert at hp
  split at hp
  · obtain ⟨q, hq, hfq⟩ := List.mem_map.mp hp
    by_cases hk : q.1 == k
    · simp only [hk, if_pos] at hfq
      exact Or.inl hfq.symm
    · simp only [hk, if_neg, Bool.false_eq_true, not_false_iff] at hfq
      exact Or.inr (hfq ▸ hq)
  · rcases List.mem_append.mp hp with h | h
    · exact Or.inr h
    · exact Or.inl (List.mem_singleton.mp h)

/-- C2: the compatibility check is fail-open: for every externalID it returns
false only when the fetched template version fails ValidateRancherVersion; when
the server version is not a release version, ParseExternalID errors, or the
lister Get errors, it returns true. -/
theorem templateVersionForRancherVersion_fail_open (env : TemplateVersionEnv)
    (externalID : String) :
    templateVersionForRancherVersion env externalID = false ↔
      (env.releaseServerVersion env.serverVersion = true ∧
        ∃ templateVersionID ns template errMsg,
          env.parseExternalID externalID = .ok (templateVersionID, ns) ∧
          env.catalogTemplateVersionGet ns templateVersionID = .ok template ∧
          env.validateRancherVersion template = .error errMsg) := by
  unfold templateVersionForRancherVersion
  cases hrel : env.releaseServerVersion env.serverVersion with
  | false => simp [hrel]
  | true =>
    simp only [hrel, Bool.not_true, Bool.false_eq_true, if_false, true_and]
    cases hp : env.parseExternalID externalID with
    | error e => simp [hp]
    | ok pr =>
      obtain ⟨tvid, ns⟩ := pr
      cases hg : env.catalogTemplateVersionGet ns tvid with
      | error e =>
        simp only [hp, hg]
        constructor
        · intro h; cases h
        · rintro ⟨a, b, c, d, hab, hc, -⟩
          obtain ⟨rfl, rfl⟩ := Prod.mk.injEq .. ▸ Except.ok.inj hab
          cases hg ▸ hc
      | ok tmpl =>
        cases hv : env.validateRancherVersion tmpl with
        | error e =>
          simp only [hp, hg, hv]
          constructor
          · intro _; exact ⟨tvid, ns, tmpl, e, rfl, hg, hv⟩
          · intro _; exact trivial
        | ok u =>
          simp only [hp, hg, hv]
          constructor
          · intro h; cases h
          · rintro ⟨a, b, c, d, hab, hc, hd⟩
            obtain ⟨rfl, rfl⟩ := Prod.mk.injEq .. ▸ Except.ok.inj hab
            obtain rfl := Except.ok.inj (hg ▸ hc)
            cases hv ▸ hd

/-- C6: the seeded etcd rule named high-number-of-leader-changes has metric
expression increase(etcd_server_leader_changes_seen_total[1h]), comparison
greater-than, threshold value 3, and warning severity. -/
theorem etcd_leader_changes_rule_fields (dtf : TimingField) :
    (((entries dtf).find? (fun e => e.group.name == "etcd-alert")).bind
        (fun e => e.rules.find? (fun r => r.name == "high-number-of-leader-changes"))).map
        (fun r => (r.spec.severity,
          r.spec.metricRule.map (fun m => (m.expression, m.comparison, m.thresholdValue))))
      = some (SeverityWarning,
          some ("increase(etcd_server_leader_changes_seen_total[1h])",
            Comparison.greaterThan, 3)) := rfl

/-- C7: the seeded node rule named high-memmory has the node-memory-utilization
expression compared with greater-or-equal against threshold value 80 and
carries warning severity. -/
theorem node_high_memory_rule_fields (dtf : TimingField) :
    (((entries dtf).find? (fun e => e.group.name == "node-alert")).bind
        (fun e => e.rules.find? (fun r => r.name == "high-memmory"))).map
        (fun r => (r.spec.severity,
          r.spec.metricRule.map (fun m => (m.expression, m.comparison, m.thresholdValue))))
      = some (SeverityWarning,
          some ("(1 - sum(node_memory_MemAvailable_bytes) by (instance) / sum(node_memory_MemTotal_bytes) by (instance)) * 100",
            Comparison.greaterOrEqual, 80)) := rfl

/-- C9: ProjectLifecycle.Create seeds one built-in project alert group named
projectalert-workload-alert and two rules, less-than-half-workload-available
(critical, workload available percentage 50) and
memory-close-to-resource-limited (warning, metric threshold 1), each namespaced
to the project and referencing the group's ID. -/
theorem projectLifecycleCreate_seeds (dtf : TimingField) (client : ProjectClient)
    (obj : ProjectObj) :
    ((projectLifecycleCreate dtf client obj).2.1.1.map (fun g => (g.name, g.nspace)))
        = [("projectalert-workload-alert", obj.name)] ∧
      ((projectLifecycleCreate dtf client obj).2.1.2.map
          (fun r => (r.name, r.nspace, r.spec.groupName, r.spec.severity,
            r.spec.workloadRule.map (fun w => w.availablePercentage),
            r.spec.metricRule.map (fun m => m.thresholdValue))))
        = [("less-than-half-workload-available", obj.name,
              GetGroupID obj.name "projectalert-workload-alert", SeverityCritical,
              some 50, none),
            ("memory-close-to-resource-limited", obj.name,
              GetGroupID obj.name "projectalert-workload-alert", SeverityWarning,
              none, some 1)] :=
  ⟨rfl, rfl⟩

/-- C10: ProjectLifecycle.Create, Updated, and Remove always return the input
project object unchanged with a nil error, whatever the outcomes of the
underlying Create calls are. -/
theorem projectLifecycle_returns_input (dtf : TimingField) (client : ProjectClient)
    (obj : ProjectObj) :
    (projectLifecycleCreate dtf client obj).1 = (obj, none) ∧
      projectLifecycleUpdated obj = (obj, none) ∧
      projectLifecycleRemove obj = (obj, none) :=
  ⟨rfl, rfl, rfl⟩

/-- Per-rule agreement between the loop body of initClusterPreCanAlerts and the
reference reconciliation, with existence read as "the lister Get does not
report not-found". -/
theorem ruleCreates_eq_reference (client : ClusterClient) (cn gn : String)
    (r : ClusterAlertRule) :
    ruleCreates client cn gn r =
      (if !(client.ruleGet cn r.name).isNotFound then []
       else [CreateCall.rule (seededRule cn gn r)]) := by
  unfold ruleCreates
  cases client.ruleGet cn r.name <;> simp [GetResult.isNotFound]

/-- Per-group agreement between the loop body of initClusterPreCanAlerts and
the reference reconciliation. -/
theorem groupCreates_eq_reference (client : ClusterClient) (cn : String)
    (g : ClusterAlertGroup) :
    groupCreates client cn g =
      (if !(client.groupGet cn g.name).isNotFound then []
       else [CreateCall.group (seededGroup cn g)]) := by
  unfold groupCreates
  cases client.groupGet cn g.name <;> simp [GetResult.isNotFound]

/-- The sequenced loop output is congruent under pointwise-equal bodies. -/
theorem listBind_congr {l : List α} {f g : α → List β}
    (h : ∀ a ∈ l, f a = g a) : listBind l f = listBind l g := by
  induction l with
  | nil => rfl
  | cons a l ih =>
    simp only [listBind, List.foldr_cons] at *
    rw [h a (List.mem_cons_self a l), ih (fun b hb => h b (List.mem_cons_of_mem a hb))]

/-- C5: initClusterPreCanAlerts is the reference reconciliation function of
the spec — for each (group, rules) entry of the static table, if the keyed
object does not exist then create it with the table's value, the cluster name
and group ID filled in — instantiated with existence read off the abstract
client's lister answers. -/
theorem initClusterPreCanAlerts_refines_reconcile (dtf : TimingField)
    (client : ClusterClient) (clusterName : String) :
    initClusterPreCanAlerts dtf client clusterName =
      referenceReconcile dtf
        (fun n => !(client.groupGet clusterName n).isNotFound)
        (fun n => !(client.ruleGet clusterName n).isNotFound)
        clusterName := by
  unfold initClusterPreCanAlerts referenceReconcile
  refine listBind_congr (fun e _ => ?_)
  unfold entryCreates
  rw [groupCreates_eq_reference]
  refine congrArg _ (listBind_congr (fun r _ => ?_))
  exact ruleCreates_eq_reference client clusterName e.group.name r

/-- The sequenced loop output is empty when every element's batch is empty. -/
theorem listBind_eq_nil {l : List α} {f : α → List β}
    (h : ∀ a ∈ l, f a = []) : listBind l f = [] := by
  induction l with
  | nil => rfl
  | cons a l ih =>
    simp only [listBind, List.foldr_cons] at *
    rw [h a (List.mem_cons_self a l), ih (fun b hb => h b (List.mem_cons_of_mem a hb))]
    rfl

/-- C4: seeding is idempotent: when every precanned alert group and rule
already exists in the cluster — the listers find each of them —
initClusterPreCanAlerts issues no Create calls, so a second run of the seeding
routine changes nothing beyond the first. -/
theorem initClusterPreCanAlerts_idempotent (dtf : TimingField)
    (client : ClusterClient) (clusterName : String)
    (h : ∀ e ∈ entries dtf,
      (∃ g, client.groupGet clusterName e.group.name = .found g) ∧
        ∀ r ∈ e.rules, ∃ r0, client.ruleGet clusterName r.name = .found r0) :
    initClusterPreCanAlerts dtf client clusterName = [] := by
  unfold initClusterPreCanAlerts
  refine listBind_eq_nil (fun e he => ?_)
  obtain ⟨⟨g, hg⟩, hrules⟩ := h e he
  unfold entryCreates
  rw [listBind_eq_nil (fun r hr => ?_)]
  · unfold groupCreates
    rw [hg]
    rfl
  · obtain ⟨r0, hr0⟩ := hrules r hr
    unfold ruleCreates
    rw [hr0]

/-- Evaluation of C4 at a concrete cluster whose listers find every object:
the seeding routine issues no Create calls. -/
theorem initClusterPreCanAlerts_idempotent_witness :
    initClusterPreCanAlerts dtf0 clientAllFound "c1" = [] :=
  initClusterPreCanAlerts_idempotent dtf0 clientAllFound "c1"
    (fun _ _ => ⟨⟨dummyGroup, rfl⟩, fun _ _ => ⟨dummyRule, rfl⟩⟩)

/-- C3: initClusterPreCanAlerts attempts to seed exactly the four cluster
alert groups etcd-alert, kube-components-alert, node-alert, and event-alert
with their statically defined rules, creating a group or rule exactly when the
lister reports it not found for that cluster. -/
theorem initClusterPreCanAlerts_seeds_table (dtf : TimingField)
    (client : ClusterClient) (cn : String) :
    (entries dtf).map (fun e => e.group.name)
        = ["etcd-alert", "kube-components-alert", "node-alert", "event-alert"] ∧
      (∀ g, CreateCall.group g ∈ initClusterPreCanAlerts dtf client cn →
        client.groupGet cn g.name = .notFound ∧
          ∃ e ∈ entries dtf, g = seededGroup cn e.group) ∧
      (∀ r, CreateCall.rule r ∈ initClusterPreCanAlerts dtf client cn →
        client.ruleGet cn r.name = .notFound ∧
          ∃ e ∈ entries dtf, ∃ r0 ∈ e.rules, r = seededRule cn e.group.name r0) ∧
      (∀ e ∈ entries dtf, client.groupGet cn e.group.name = .notFound →
        CreateCall.group (seededGroup cn e.group) ∈ initClusterPreCanAlerts dtf client cn) ∧
      (∀ e ∈ entries dtf, ∀ r0 ∈ e.rules, client.ruleGet cn r0.name = .notFound →
        CreateCall.rule (seededRule cn e.group.name r0) ∈ initClusterPreCanAlerts dtf client cn) := by
  refine ⟨rfl, ?_, ?_, ?_, ?_⟩
  · intro g hg
    obtain ⟨e, he, hx⟩ := mem_listBind.mp hg
    unfold entryCreates at hx
    rcases List.mem_append.mp hx with hx | hx
    · unfold groupCreates at hx
      cases hget : client.groupGet cn e.group.name <;> rw [hget] at hx
      · cases hx
      · obtain rfl := CreateCall.group.inj (List.mem_singleton.mp hx)
        exact ⟨hget, e, he, rfl⟩
      · cases hx
    · obtain ⟨r, _, hxr⟩ := mem_listBind.mp hx
      unfold ruleCreates at hxr
      cases hget : client.ruleGet cn r.name <;> rw [hget] at hxr
      · cases hxr
      · cases List.mem_singleton.mp hxr
      · cases hxr
  · intro r hr
    obtain ⟨e, he, hx⟩ := mem_listBind.mp hr
    unfold entryCreates at hx
    rcases List.mem_append.mp hx with hx | hx
    · unfold groupCreates at hx
      cases hget : client.groupGet cn e.group.name <;> rw [hget] at hx
      · cases hx
      · cases List.mem_singleton.mp hx
      · cases hx
    · obtain ⟨r0, hr0, hxr⟩ := mem_listBind.mp hx
      unfold ruleCreates at hxr
      cases hget : client.ruleGet cn r0.name <;> rw [hget] at hxr
      · cases hxr
      · obtain rfl := CreateCall.rule.inj (List.mem_singleton.mp hxr)
        exact ⟨hget, e, he, r0, hr0, rfl⟩
      · cases hxr
  · intro e he hget
    refine mem_listBind.mpr ⟨e, he, ?_⟩
    unfold entryCreates
    refine List.mem_append_left _ ?_
    unfold groupCreates
    rw [hget]
    exact List.mem_singleton.mpr rfl
  · intro e he r0 hr0 hget
    refine mem_listBind.mpr ⟨e, he, ?_⟩
    unfold entryCreates
    refine List.mem_append_right _ ?_
    refine mem_listBind.mpr ⟨r0, hr0, ?_⟩
    unfold ruleCreates
    rw [hget]
    exact List.mem_singleton.mpr rfl

/-- Evaluation of C3 at a concrete cluster whose listers report everything
missing: the first table entry's group (etcd-alert) is among the issued group
Create calls. -/
theorem initClusterPreCanAlerts_seeds_table_witness :
    CreateCall.group (seededGroup "c1" ((entries dtf0).getD 0 dummyEntry).group)
      ∈ initClusterPreCanAlerts dtf0 clientAllNotFound "c1" :=
  (initClusterPreCanAlerts_seeds_table dtf0 clientAllNotFound "c1").2.2.2.1
    ((entries dtf0).getD 0 dummyEntry) (by decide) rfl

/-- C8: windowsNodeSyner.Sync provisions the windows-node-disk-running-full
rule (node-alert group, critical severity) only when at least one node carrying
the windows label exists; with no such node it creates nothing and returns the
input object with a nil error, and when the rule already exists it creates
nothing. -/
theorem windowsNodeSynerSync_claim (dtf : TimingField) (env : WindowsNodeSyncEnv)
    (obj : Node) :
    (∀ ns, env.allNodes = .ok ns → ns.filter matchesWindowNodeLabel = [] →
        windowsNodeSynerSync dtf env obj = ((some obj, none), [])) ∧
      (∀ r, r ∈ (windowsNodeSynerSync dtf env obj).2 →
        r = windowsRule dtf env.clusterName ∧
          ∃ ns, env.allNodes = .ok ns ∧ ∃ n ∈ ns, matchesWindowNodeLabel n = true) ∧
      (∀ ex, env.ruleGet = .found ex → (windowsNodeSynerSync dtf env obj).2 = []) ∧
      ((windowsRule dtf env.clusterName).name = "windows-node-disk-running-full" ∧
        (windowsRule dtf env.clusterName).spec.groupName
          = GetGroupID env.clusterName nodeAlertGroupName ∧
        (windowsRule dtf env.clusterName).spec.severity = SeverityCritical) := by
  refine ⟨?_, ?_, ?_, rfl, rfl, rfl⟩
  · intro ns hns hfilt
    unfold windowsNodeSynerSync
    rw [hns]
    simp [hfilt]
  · intro r hr
    unfold windowsNodeSynerSync at hr
    cases hn : env.allNodes with
    | error e => rw [hn] at hr; cases hr
    | ok ns =>
      rw [hn] at hr
      simp only at hr
      split at hr
      · rename_i hlen
        unfold initClusterWindowsAlert at hr
        cases hget : env.ruleGet with
        | otherError e => rw [hget] at hr; cases hr
        | found ex => rw [hget] at hr; cases hr
        | notFound =>
          rw [hget] at hr
          have hr' : r = windowsRule dtf env.clusterName := by
            cases hc : env.ruleCreate (windowsRule dtf env.clusterName) <;>
              simp only [hc] at hr <;> exact List.mem_singleton.mp hr
          refine ⟨hr', ns, rfl, ?_⟩
          have hne : ns.filter matchesWindowNodeLabel ≠ [] :=
            fun hnil => hlen (by rw [hnil]; rfl)
          obtain ⟨n, hnmem⟩ := List.exists_mem_of_ne_nil _ hne
          obtain ⟨hn1, hn2⟩ := List.mem_filter.mp hnmem
          exact ⟨n, hn1, hn2⟩
      · cases hr
  · intro ex hget
    unfold windowsNodeSynerSync
    cases hn : env.allNodes with
    | error e => rfl
    | ok ns =>
      simp only
      split
      · unfold initClusterWindowsAlert
        rw [hget]
      · rfl

/-- Evaluation of C8 at a concrete environment with one windows node and no
existing rule (the created rule is the windows rule, a windows node exists) and
at an environment where the rule already exists (nothing is created). -/
theorem windowsNodeSynerSync_claim_witness :
    (windowsRule dtf0 winEnv0.clusterName = windowsRule dtf0 winEnv0.clusterName ∧
        ∃ ns, winEnv0.allNodes = .ok ns ∧ ∃ n ∈ ns, matchesWindowNodeLabel n = true) ∧
      (windowsNodeSynerSync dtf0 winEnvFound winNode0).2 = [] :=
  ⟨(windowsNodeSynerSync_claim dtf0 winEnv0 winNode0).2.1
      (windowsRule dtf0 winEnv0.clusterName) (by decide),
    (windowsNodeSynerSync_claim dtf0 winEnvFound winNode0).2.2.1 dummyRule rfl⟩

/-- Any pair in the version-link fold came from the accumulator or from a
compatible version of the list, mapped to its resource link. -/
theorem versionLinks_foldl_mem (ctx : APIContextModel) (res : TemplateResource) :
    ∀ (vs : List VersionData) (acc : List (String × String)) (p : String × String),
      p ∈ vs.foldl (versionLinkStep ctx res) acc →
        p ∈ acc ∨ ∃ v ∈ vs,
          templateVersionForRancherVersion ctx.tvEnv v.externalId = true ∧
            p = (v.version, ctx.resourceLinkByID (versionIDOf res v)) := by
  intro vs
  induction vs with
  | nil => intro acc p hp; exact Or.inl hp
  | cons v vs ih =>
    intro acc p hp
    rw [List.foldl_cons] at hp
    rcases ih _ p hp with hacc | ⟨v', hv', hc, hpv⟩
    · unfold versionLinkStep at hacc
      split at hacc
      · rename_i hcompat
        rcases mem_mapInsert hacc with heq | hm
        · exact Or.inr ⟨v, List.mem_cons_self v vs, hcompat, heq⟩
        · exact Or.inl hm
      · exact Or.inl hacc
    · exact Or.inr ⟨v', List.mem_cons_of_mem v hv', hc, hpv⟩

/-- C1: the transformer sets the versionLinks field to the map computed by
extractVersionLinks and reports no error, and a version string keys that map,
mapped to the resource link of that version's ID, only for a version of the
resource that templateVersionForRancherVersion reports compatible; incompatible
versions are omitted. -/
theorem templateStoreTransformer_version_links (ctx : APIContextModel)
    (d : TemplateResource) :
    (templateStoreTransformer ctx d).1.versionLinks = some (extractVersionLinks ctx d) ∧
      (templateStoreTransformer ctx d).2 = none ∧
      ∀ k val, (k, val) ∈ extractVersionLinks ctx d →
        ∃ vs, d.versions = some vs ∧
          ∃ v ∈ vs, templateVersionForRancherVersion ctx.tvEnv v.externalId = true ∧
            v.version = k ∧ val = ctx.resourceLinkByID (versionIDOf d v) := by
  refine ⟨rfl, rfl, ?_⟩
  intro k val hkv
  unfold extractVersionLinks at hkv
  cases hv : d.versions with
  | none => rw [hv] at hkv; cases hkv
  | some vs =>
    rw [hv] at hkv
    rcases versionLinks_foldl_mem ctx d vs [] (k, val) hkv with h | ⟨v, hvmem, hc, hp⟩
    · cases h
    · have h12 := Prod.mk.inj hp
      exact ⟨vs, rfl, v, hvmem, hc, h12.1.symm, h12.2⟩

/-- Evaluation of C1 at a concrete context and resource: the key 1.0.0 of the
computed version-link map comes from a compatible version of the resource. -/
theorem templateStoreTransformer_version_links_witness :
    ∃ vs, res0.versions = some vs ∧
      ∃ v ∈ vs, templateVersionForRancherVersion ctx0.tvEnv v.externalId = true ∧
        v.version = "1.0.0" ∧
          "link/library-app-1.0.0" = ctx0.resourceLinkByID (versionIDOf res0 v) :=
  (templateStoreTransformer_version_links ctx0 res0).2.2 "1.0.0"
    "link/library-app-1.0.0" (by decide)
